import Mathlib

/-!
Verification of the duosight MLX90640 thermal frame acquisition engine.

This file gives a shallow embedding, in Lean, of the frame-synchronization
core of the repository:

* `src/mlx90640-reader/src/MLX90640Reader.cpp` — `waitForNewFrame`,
  `readSubPage`, `combineChessTemperatures`, `readFrame`;
* `src/mlx90640-reader/include/MLX90640Regs.hpp` — the polling and status
  register constants;
* `src/mlx90640-reader/include/MLX90640Reader.hpp` — the refresh-rate table;
* `src/libduosight/src/mlx90640Transport.cpp` — the C transport shims.

The I2C bus is modelled as an oracle (`Env`) giving, for each successive
bus operation of a given kind, the value the device produced (`none` meaning
an I2C failure).  A `BusState` counts how many operations of each kind have
been issued, so theorems can speak about the number of status reads, whether
a RAM burst was issued, and how much sleeping occurred.  The vendor
calibration library (MLX90640_GetTa, MLX90640_CalculateTo) is out of scope
in the repository and is modelled as opaque oracle functions on the captured
buffer, with temperatures as rationals (finite floats) and `none` standing
for a non-finite (NaN/inf) ambient reading.
-/

namespace Duosight

/-! ## Constants from MLX90640Regs.hpp -/

/-- Polling::MAX_RETRIES (MLX90640Regs.hpp line 44). -/
def MAX_RETRIES : Nat := 150

/-- Polling::DELAY_US, microseconds slept per poll (MLX90640Regs.hpp line 45). -/
def DELAY_US : Nat := 5000

/-- Geometry::WIDTH (MLX90640Regs.hpp line 36). -/
def WIDTH : Nat := 32

/-- Geometry::HEIGHT (MLX90640Regs.hpp line 37). -/
def HEIGHT : Nat := 24

/-- Geometry::PIXELS.  Not defined in the headers under src, but fixed by its
uses there: `raw[Geometry::PIXELS + 64]` is documented as index 832 in
MLX90640Reader.cpp lines 214-215, so PIXELS = 768 = WIDTH * HEIGHT, matching
the 32x24 sensor and the unit test's expected frame size of 768. -/
def PIXELS : Nat := 768

/-- Status::NEW_DATA_READY, bit 3 of the status word (MLX90640Regs.hpp line 75). -/
def NEW_DATA_READY : Nat := 8

/-- Status::SUBPAGE_MASK, bits 0-2 of the status word (MLX90640Regs.hpp line 73). -/
def SUBPAGE_MASK : Nat := 7

/-- Status::OVERRUN, bit 4 of the status word (MLX90640Regs.hpp line 76). -/
def OVERRUN : Nat := 16

/-! ## Status decoding (branch structure of waitForNewFrame, lines 143-165) -/

/-- Outcome of inspecting one status word, as branched on by
`MLX90640Reader::waitForNewFrame`: bit 3 clear means no new data yet
(keep polling); bit 3 set with low three bits 0 or 1 means that subpage is
ready; bit 3 set with any other low-bit value is the invalid/reserved
subpage code branch (lines 158-164), which aborts the wait. -/
inductive StatusDecode where
  | notReady
  | ready (sp : Nat)
  | invalid
deriving DecidableEq, Repr

/-- Decode of a raw status word, following waitForNewFrame lines 143-165:
test NEW_DATA_READY (bit 3); if set, take the low three bits and accept 0
or 1 as the ready subpage, anything else being the invalid branch. -/
def decodeStatus (w : Nat) : StatusDecode :=
  if w &&& NEW_DATA_READY ≠ 0 then
    let lsb3 := w &&& SUBPAGE_MASK
    if lsb3 = 0 ∨ lsb3 = 1 then .ready lsb3 else .invalid
  else .notReady

/-! ## Bus oracle and operation counters -/

/-- Oracle for the device as seen over I2C, plus the opaque vendor
calibration library.  `status k` is the value produced by the k-th read of
the STATUS register 0x8000 (counting reads from `waitForNewFrame` and
`readSubPage` together, in issue order); `ram k` gives the 832 words of the
k-th RAM burst from 0x0400 as a function of burst index; `ctrl k` is the
k-th read of CTRL1 0x800D; `writeOk k` tells whether the k-th write to the
STATUS register succeeded.  `none` models an I2C transaction failure.
`getTa` models MLX90640_GetTa on a captured buffer (`none` = non-finite
float), and `calcTo` models MLX90640_CalculateTo pixel-wise given the
buffer and the ambient temperature. -/
structure Env where
  devOpen : Bool
  status : Nat → Option Nat
  ram : Nat → Option (Nat → Nat)
  ctrl : Nat → Option Nat
  writeOk : Nat → Bool
  getTa : List Nat → Option ℚ
  calcTo : List Nat → ℚ → Nat → ℚ

/-- Counters of bus operations issued so far, plus accumulated sleep time in
microseconds.  `nStatus` counts STATUS reads, `nRam` RAM bursts, `nCtrl`
CTRL1 reads, `nWrite` STATUS-clearing writes. -/
structure BusState where
  nStatus : Nat
  nRam : Nat
  nCtrl : Nat
  nWrite : Nat
  nSleepUs : Nat
deriving DecidableEq, Repr

/-- The state at the start of a `readFrame` call: no operations issued. -/
def initState : BusState := ⟨0, 0, 0, 0, 0⟩

/-- Record one STATUS read. -/
def bumpStatus (s : BusState) : BusState := { s with nStatus := s.nStatus + 1 }

/-- Record one RAM burst. -/
def bumpRam (s : BusState) : BusState := { s with nRam := s.nRam + 1 }

/-- Record one CTRL1 read. -/
def bumpCtrl (s : BusState) : BusState := { s with nCtrl := s.nCtrl + 1 }

/-- Record one STATUS write. -/
def bumpWrite (s : BusState) : BusState := { s with nWrite := s.nWrite + 1 }

/-- Record one usleep(DELAY_US). -/
def sleepSt (s : BusState) : BusState := { s with nSleepUs := s.nSleepUs + DELAY_US }

/-- The status-clearing write `MLX90640_I2CWrite(addr, 0x8000, 0x0000)`:
consumes one write slot and reports whether it succeeded. -/
def clearStatusWrite (env : Env) (s : BusState) : Bool × BusState :=
  (env.writeOk s.nWrite, bumpWrite s)

/-! ## waitForNewFrame (MLX90640Reader.cpp lines 129-173) -/

/-- MLX90640Reader::waitForNewFrame, with the loop counter made explicit as
fuel (the source iterates `tries` from 0 below Polling::MAX_RETRIES).  Each
iteration reads STATUS once; an I2C failure returns false immediately
(modelled `none`); a decoded ready subpage returns true with that subpage;
the invalid-subpage branch returns false immediately; not-ready sleeps
DELAY_US and retries; running out of tries is the timeout, returning false. -/
def waitForNewFrame (env : Env) : Nat → BusState → Option Nat × BusState
  | 0, s => (none, s)
  | fuel + 1, s =>
    match env.status s.nStatus with
    | none => (none, bumpStatus s)
    | some w =>
      match decodeStatus w with
      | .ready sp => (some sp, bumpStatus s)
      | .invalid => (none, bumpStatus s)
      | .notReady => waitForNewFrame env fuel (sleepSt (bumpStatus s))

/-- The retry loop wrapped around waitForNewFrame inside
MLX90640Reader::readFrame (lines 302-305 and 337-340): up to
Polling::MAX_RETRIES calls of waitForNewFrame, sleeping DELAY_US after each
failed call, stopping at the first call that returns true, with the subpage
it reported. -/
def seekLoop (env : Env) : Nat → BusState → Option Nat × BusState
  | 0, s => (none, s)
  | fuel + 1, s =>
    match waitForNewFrame env MAX_RETRIES s with
    | (some sp, s1) => (some sp, s1)
    | (none, s1) => seekLoop env fuel (sleepSt s1)

/-! ## readSubPage (MLX90640Reader.cpp lines 177-228) -/

/-- MLX90640Reader::readSubPage.  Steps, in source order: (A) one STATUS
pre-read, latched; its low three bits must be 0 or 1 and must equal the
expected subpage (when that is 0 or 1), else fail before any burst; (B) the
832-word RAM burst from 0x0400; (C) one CTRL1 read, then the two trailing
words are appended: index 832 gets `status_first & 0x0001` and index 833
the CTRL1 snapshot; (D) the STATUS register is cleared, a failed clear
failing the call.  Returns the 834-word buffer on success. -/
def readSubPage (env : Env) (expectedSubpage : Nat) (s : BusState) :
    Option (List Nat) × BusState :=
  match env.status s.nStatus with
  | none => (none, bumpStatus s)
  | some w =>
    let s1 := bumpStatus s
    let sp := w &&& SUBPAGE_MASK
    if sp ≠ 0 ∧ sp ≠ 1 then (none, s1)
    else if (expectedSubpage = 0 ∨ expectedSubpage = 1) ∧ sp ≠ expectedSubpage then
      (none, s1)
    else
      match env.ram s1.nRam with
      | none => (none, bumpRam s1)
      | some f =>
        let s2 := bumpRam s1
        match env.ctrl s2.nCtrl with
        | none => (none, bumpCtrl s2)
        | some c =>
          let s3 := bumpCtrl s2
          let buf := (List.range 832).map f ++ [w &&& 1, c]
          let r := clearStatusWrite env s3
          if r.1 then (some buf, r.2) else (none, r.2)

/-! ## One subpage phase of readFrame (lines 298-331 and 334-366) -/

/-- One subpage phase of MLX90640Reader::readFrame.  The two phases (seek
subpage 0 then subpage 1) are textually duplicated in the source with only
`seekFrame` and the destination buffer differing; this function captures
one phase: run the seek loop; on timeout clear STATUS (result ignored) and
fail; if the found subpage differs from `seekFrame` clear STATUS and fail;
otherwise readSubPage it, clearing STATUS afterwards in every case (the
source issues the extra `(void)MLX90640_I2CWrite(..., 0x8000, 0)` on both
the success and the failure path). -/
def acquirePhase (env : Env) (seekFrame : Nat) (s : BusState) :
    Option (List Nat) × BusState :=
  match seekLoop env MAX_RETRIES s with
  | (none, s1) => (none, (clearStatusWrite env s1).2)
  | (some sp, s1) =>
    if sp ≠ seekFrame then (none, (clearStatusWrite env s1).2)
    else
      match readSubPage env sp s1 with
      | (none, s2) => (none, (clearStatusWrite env s2).2)
      | (some buf, s2) => (some buf, (clearStatusWrite env s2).2)

/-! ## Ambient temperature selection and chess merge -/

/-- The ambient-temperature selection of readFrame lines 375-377: average
of the two subpages' Ta when both are finite, else whichever is finite,
else not finite (and line 380-383 then fails the frame). -/
def selectTa : Option ℚ → Option ℚ → Option ℚ
  | some a, some b => some ((a + b) / 2)
  | some a, none => some a
  | none, some b => some b
  | none, none => none

/-- MLX90640Reader::combineChessTemperatures (lines 230-252): element idx of
the merged frame comes from toA when the chess parity `(row + col) & 1` of
the pixel selects subpageA, else from toB.  The source branches first on
the parity and then on whether subpageA is the matching subpage; subpageB
is accepted but never consulted, exactly as in the source. -/
def combineChessTemperatures {α : Type} (toA toB : Nat → α)
    (subpageA subpageB : Nat) : List α :=
  (List.range PIXELS).map fun idx =>
    let row := idx / WIDTH
    let col := idx % WIDTH
    let parity := (row + col) &&& 1
    if parity = 0 then (if subpageA = 0 then toA idx else toB idx)
    else (if subpageA = 1 then toA idx else toB idx)

/-! ## readFrame (MLX90640Reader.cpp lines 282-398) -/

/-- MLX90640Reader::readFrame: check the device is open, acquire subpage 0
then subpage 1 (each via `acquirePhase`), compute TaA and TaB with the
vendor library, select the ambient temperature (failing the frame when
neither is finite), convert both buffers, and merge them with
combineChessTemperatures(toA, toB, 0, 1).  Returns the merged frame. -/
def readFrame (env : Env) (s : BusState) : Option (List ℚ) × BusState :=
  if env.devOpen = false then (none, s)
  else
    match acquirePhase env 0 s with
    | (none, s1) => (none, s1)
    | (some fA, s1) =>
      match acquirePhase env 1 s1 with
      | (none, s2) => (none, s2)
      | (some fB, s2) =>
        match selectTa (env.getTa fA) (env.getTa fB) with
        | none => (none, s2)
        | some ta =>
          (some (combineChessTemperatures (env.calcTo fA ta) (env.calcTo fB ta) 0 1), s2)

/-! ## Refresh-rate table (MLX90640Reader.hpp lines 44-65) -/

/-- refresh::RateInfo (MLX90640Reader.hpp lines 44-47), with the float
fields as rationals (all table entries are exact dyadic values). -/
structure RateInfo where
  hz_full_frame : ℚ
  sec_subpage : ℚ
deriving DecidableEq, Repr

/-- refresh::TABLE (MLX90640Reader.hpp lines 49-58), indexed by the 3-bit
refresh code FR0P5 .. FR64. -/
def TABLE : List RateInfo :=
  [⟨1/2, 1⟩, ⟨1, 1/2⟩, ⟨2, 1/4⟩, ⟨4, 1/8⟩,
   ⟨8, 1/16⟩, ⟨16, 1/32⟩, ⟨32, 1/64⟩, ⟨64, 1/128⟩]

/-- refresh::RefreshInfo (MLX90640Reader.hpp lines 60-64); the header
comments document -1 as the value of both rate fields when the code is
invalid. -/
structure RefreshInfo where
  code : Nat
  hz : ℚ
  subpage_period_s : ℚ
deriving DecidableEq, Repr

/-- Modelled from the spec: the body of MLX90640Reader::readRefreshRate is
not present under src (the function is only declared, MLX90640Reader.hpp
line 90).  Spec section 4.4: map the decoded 3-bit code through the fixed
table to the full-frame rate and derive the subpage period; an out-of-range
code yields an explicit invalid result, which per the header comments on
RefreshInfo is the -1 sentinel in both rate fields. -/
def refreshInfoOfCode (code : Nat) : RefreshInfo :=
  match TABLE[code]? with
  | some r => ⟨code, r.hz_full_frame, r.sec_subpage⟩
  | none => ⟨code, -1, -1⟩

/-- Modelled from the spec: readRefreshRate reads CTRL1 and extracts the
3-bit refresh code before the table lookup; the extraction
`(ctrl >> 7) & 0x07` follows the only in-source extraction of the code,
in MLX90640Reader::initialize (MLX90640Reader.cpp line 92). -/
def readRefreshRate (ctrl : Nat) : RefreshInfo :=
  refreshInfoOfCode ((ctrl >>> 7) &&& 7)

/-! ## Transport shims (mlx90640Transport.cpp) -/

/-- The duosight::I2cDevice methods used by the transport shims, as oracles:
`writeThenRead tx rxLen` returns the `rxLen` bytes read back (or `none` on
failure) and `writeBytes tx` reports success of a plain write. -/
structure I2cDeviceM where
  devOpen : Bool
  writeThenRead : List Nat → Nat → Option (List Nat)
  writeBytes : List Nat → Bool

/-- One transaction issued to the underlying I2cDevice, recording the tx
bytes (and expected rx length) so that two runs can be compared for
identical bus traffic. -/
inductive Traffic where
  | writeThenRead (tx : List Nat) (rxLen : Nat)
  | writeBytes (tx : List Nat)
deriving DecidableEq, Repr

/-- MLX90640_I2CRead (mlx90640Transport.cpp lines 13-26): with no bound or
unopened device return -1 touching nothing; otherwise send the big-endian
register address and read back 2*len bytes, assembling each output word as
`(rx[2i] << 8) | rx[2i+1]`.  Returns the C return code, the output words,
and the bus traffic issued.  The device-address parameter `addr` is
accepted and never used, exactly as in the source (all transfers go to the
globally bound device). -/
def MLX90640_I2CRead (g : Option I2cDeviceM) (addr reg len : Nat) :
    Int × List Nat × List Traffic :=
  match g with
  | none => (-1, [], [])
  | some d =>
    if d.devOpen = false then (-1, [], [])
    else
      let tx := [(reg >>> 8) % 256, reg % 256]
      match d.writeThenRead tx (2 * len) with
      | none => (-1, [], [Traffic.writeThenRead tx (2 * len)])
      | some rx =>
        (0,
         (List.range len).map
           (fun i => ((rx.getD (2 * i) 0) <<< 8) ||| rx.getD (2 * i + 1) 0),
         [Traffic.writeThenRead tx (2 * len)])

/-- MLX90640_I2CWrite (mlx90640Transport.cpp lines 28-37): with no bound or
unopened device return -1 touching nothing; otherwise write the 4 bytes of
register address and value, big-endian, returning 0 on success and -1 on
failure.  The device-address parameter `addr` is accepted and never used. -/
def MLX90640_I2CWrite (g : Option I2cDeviceM) (addr reg val : Nat) :
    Int × List Traffic :=
  match g with
  | none => (-1, [])
  | some d =>
    if d.devOpen = false then (-1, [])
    else
      let tx := [(reg >>> 8) % 256, reg % 256, (val >>> 8) % 256, val % 256]
      if d.writeBytes tx then (0, [Traffic.writeBytes tx])
      else (-1, [Traffic.writeBytes tx])

/-! ## Helper lemmas about readSubPage -/

/-- If the latched status has low three bits differing from the expected
subpage (which is 0 or 1), readSubPage fails with only that one status read
issued: no RAM burst, no CTRL read, no write. -/
theorem readSubPage_staleStatus (env : Env) (expected : Nat) (s : BusState)
    (he : expected = 0 ∨ expected = 1) (w : Nat)
    (hst : env.status s.nStatus = some w) (hne : w &&& SUBPAGE_MASK ≠ expected) :
    readSubPage env expected s = (none, bumpStatus s) := by
  by_cases hv : w &&& SUBPAGE_MASK ≠ 0 ∧ w &&& SUBPAGE_MASK ≠ 1
  · simp only [readSubPage, hst, if_pos hv]
  · simp only [readSubPage, hst, if_neg hv, if_pos (And.intro he hne)]

/-- With the expected subpage latched and every bus operation succeeding,
readSubPage returns the 834-word buffer: the 832 burst words followed by
the latched low status bit and the CTRL1 snapshot, having issued exactly
one status read, one burst, one CTRL read and one clearing write. -/
theorem readSubPage_success (env : Env) (expected : Nat) (s : BusState)
    (he : expected = 0 ∨ expected = 1) (w : Nat) (f : Nat → Nat) (c : Nat)
    (hst : env.status s.nStatus = some w) (hsp : w &&& SUBPAGE_MASK = expected)
    (hram : env.ram s.nRam = some f) (hctrl : env.ctrl s.nCtrl = some c)
    (hwr : env.writeOk s.nWrite = true) :
    readSubPage env expected s =
      (some ((List.range 832).map f ++ [w &&& 1, c]),
       bumpWrite (bumpCtrl (bumpRam (bumpStatus s)))) := by
  have hv : ¬(w &&& SUBPAGE_MASK ≠ 0 ∧ w &&& SUBPAGE_MASK ≠ 1) := by
    rcases he with h | h <;> rw [hsp, h] <;> simp
  have h2 : ¬((expected = 0 ∨ expected = 1) ∧ w &&& SUBPAGE_MASK ≠ expected) := by
    rw [hsp]; tauto
  simp only [readSubPage, hst, bumpStatus, if_neg hv, if_neg h2]
  rw [hram]
  simp only [bumpRam]
  rw [hctrl]
  simp only [clearStatusWrite, bumpCtrl]
  rw [hwr]
  simp [bumpStatus, bumpRam, bumpCtrl, bumpWrite]

/-- The low bit of the status word is the full subpage field when the
latter is 0 or 1 (bits 1 and 2 are then clear). -/
theorem land_one_of_subpage (w : Nat)
    (h : w &&& SUBPAGE_MASK = 0 ∨ w &&& SUBPAGE_MASK = 1) :
    w &&& 1 = w &&& SUBPAGE_MASK := by
  have ha : w &&& 1 = (w &&& SUBPAGE_MASK) &&& 1 := by
    rw [Nat.land_assoc]; rfl
  rcases h with h | h <;> rw [ha, h] <;> decide

/-- A failed burst read fails readSubPage after the one status read and the
one burst attempt. -/
theorem readSubPage_ramFail (env : Env) (expected : Nat) (s : BusState)
    (he : expected = 0 ∨ expected = 1) (w : Nat)
    (hst : env.status s.nStatus = some w) (hsp : w &&& SUBPAGE_MASK = expected)
    (hram : env.ram s.nRam = none) :
    readSubPage env expected s = (none, bumpRam (bumpStatus s)) := by
  have hv : ¬(w &&& SUBPAGE_MASK ≠ 0 ∧ w &&& SUBPAGE_MASK ≠ 1) := by
    rcases he with h | h <;> rw [hsp, h] <;> simp
  have h2 : ¬((expected = 0 ∨ expected = 1) ∧ w &&& SUBPAGE_MASK ≠ expected) := by
    rw [hsp]; tauto
  simp only [readSubPage, hst, bumpStatus, if_neg hv, if_neg h2]
  rw [hram]

/-- A failed CTRL1 read fails readSubPage after status, burst and the CTRL
attempt. -/
theorem readSubPage_ctrlFail (env : Env) (expected : Nat) (s : BusState)
    (he : expected = 0 ∨ expected = 1) (w : Nat) (f : Nat → Nat)
    (hst : env.status s.nStatus = some w) (hsp : w &&& SUBPAGE_MASK = expected)
    (hram : env.ram s.nRam = some f) (hctrl : env.ctrl s.nCtrl = none) :
    readSubPage env expected s = (none, bumpCtrl (bumpRam (bumpStatus s))) := by
  have hv : ¬(w &&& SUBPAGE_MASK ≠ 0 ∧ w &&& SUBPAGE_MASK ≠ 1) := by
    rcases he with h | h <;> rw [hsp, h] <;> simp
  have h2 : ¬((expected = 0 ∨ expected = 1) ∧ w &&& SUBPAGE_MASK ≠ expected) := by
    rw [hsp]; tauto
  simp only [readSubPage, hst, bumpStatus, if_neg hv, if_neg h2]
  rw [hram]
  simp only [bumpRam]
  rw [hctrl]

/-- A failed status-clearing write fails readSubPage even though status,
burst and CTRL all succeeded: the captured data is discarded. -/
theorem readSubPage_writeFail (env : Env) (expected : Nat) (s : BusState)
    (he : expected = 0 ∨ expected = 1) (w : Nat) (f : Nat → Nat) (c : Nat)
    (hst : env.status s.nStatus = some w) (hsp : w &&& SUBPAGE_MASK = expected)
    (hram : env.ram s.nRam = some f) (hctrl : env.ctrl s.nCtrl = some c)
    (hwr : env.writeOk s.nWrite = false) :
    readSubPage env expected s =
      (none, bumpWrite (bumpCtrl (bumpRam (bumpStatus s)))) := by
  have hv : ¬(w &&& SUBPAGE_MASK ≠ 0 ∧ w &&& SUBPAGE_MASK ≠ 1) := by
    rcases he with h | h <;> rw [hsp, h] <;> simp
  have h2 : ¬((expected = 0 ∨ expected = 1) ∧ w &&& SUBPAGE_MASK ≠ expected) := by
    rw [hsp]; tauto
  simp only [readSubPage, hst, bumpStatus, if_neg hv, if_neg h2]
  rw [hram]
  simp only [bumpRam]
  rw [hctrl]
  simp only [clearStatusWrite, bumpCtrl]
  rw [hwr]
  simp [bumpStatus, bumpRam, bumpCtrl, bumpWrite]

/-- A failed status pre-read fails readSubPage immediately. -/
theorem readSubPage_statusFail (env : Env) (expected : Nat) (s : BusState)
    (hst : env.status s.nStatus = none) :
    readSubPage env expected s = (none, bumpStatus s) := by
  simp only [readSubPage, hst]

/-! ## Claim C5: the status register decoder -/

/-- Claim C5: for every status word, the decoder reports ready exactly when
bit 3 (NEW_DATA_READY) is set; when ready and the low three bits are 0 or 1
that value is reported as the subpage; when ready and the low three bits
are any other value the result is the invalid-subpage outcome, which is a
different constructor from the not-ready outcome. -/
theorem C5_statusDecoder (w : Nat) :
    (decodeStatus w = .notReady ↔ w &&& NEW_DATA_READY = 0) ∧
    (∀ sp, decodeStatus w = .ready sp ↔
      (w &&& NEW_DATA_READY ≠ 0 ∧
       (w &&& SUBPAGE_MASK = 0 ∨ w &&& SUBPAGE_MASK = 1) ∧
       sp = w &&& SUBPAGE_MASK)) ∧
    (decodeStatus w = .invalid ↔
      (w &&& NEW_DATA_READY ≠ 0 ∧
       ¬(w &&& SUBPAGE_MASK = 0 ∨ w &&& SUBPAGE_MASK = 1))) ∧
    StatusDecode.invalid ≠ StatusDecode.notReady := by
  refine ⟨?_, ?_, ?_, by simp⟩ <;>
    [skip; intro sp; skip] <;>
    by_cases hb : w &&& NEW_DATA_READY = 0 <;>
    by_cases hl : w &&& SUBPAGE_MASK = 0 ∨ w &&& SUBPAGE_MASK = 1 <;>
    simp [decodeStatus, hb, hl, eq_comm]

/-- Witness for C5 at the concrete status word 9 (bit 3 set, low bits 1). -/
theorem C5_statusDecoder_witness :
    decodeStatus 9 = .ready 1 ↔
      (9 &&& NEW_DATA_READY ≠ 0 ∧
       (9 &&& SUBPAGE_MASK = 0 ∨ 9 &&& SUBPAGE_MASK = 1) ∧
       1 = 9 &&& SUBPAGE_MASK) :=
  (C5_statusDecoder 9).2.1 1

/-! ## Claim C6: readSubPage step order and contents -/

/-- Claim C6: readSubPage latches a single status read; a latched subpage
differing from the expected one fails the capture with no RAM burst issued;
otherwise the 832-word RAM window is burst-read, the buffer gets the two
metadata words at indices 832 (the subpage index from the latched status)
and 833 (the separately read control-register snapshot), and the status
register is cleared; each step fails the capture if its bus operation
fails. -/
theorem C6_readSubPage_order (env : Env) (expected : Nat) (s : BusState)
    (he : expected = 0 ∨ expected = 1) :
    (∀ w, env.status s.nStatus = some w → w &&& SUBPAGE_MASK ≠ expected →
       readSubPage env expected s = (none, bumpStatus s)) ∧
    (∀ w f c, env.status s.nStatus = some w → w &&& SUBPAGE_MASK = expected →
       env.ram s.nRam = some f → env.ctrl s.nCtrl = some c →
       env.writeOk s.nWrite = true →
       readSubPage env expected s =
         (some ((List.range 832).map f ++ [w &&& 1, c]),
          bumpWrite (bumpCtrl (bumpRam (bumpStatus s)))) ∧
       ((List.range 832).map f ++ [w &&& 1, c]).length = 834 ∧
       ((List.range 832).map f ++ [w &&& 1, c])[832]? = some (w &&& 1) ∧
       ((List.range 832).map f ++ [w &&& 1, c])[833]? = some c ∧
       w &&& 1 = expected) ∧
    (∀ w, env.status s.nStatus = some w → w &&& SUBPAGE_MASK = expected →
       env.ram s.nRam = none →
       readSubPage env expected s = (none, bumpRam (bumpStatus s))) ∧
    (∀ w f, env.status s.nStatus = some w → w &&& SUBPAGE_MASK = expected →
       env.ram s.nRam = some f → env.ctrl s.nCtrl = none →
       readSubPage env expected s = (none, bumpCtrl (bumpRam (bumpStatus s)))) ∧
    (∀ w f c, env.status s.nStatus = some w → w &&& SUBPAGE_MASK = expected →
       env.ram s.nRam = some f → env.ctrl s.nCtrl = some c →
       env.writeOk s.nWrite = false →
       readSubPage env expected s =
         (none, bumpWrite (bumpCtrl (bumpRam (bumpStatus s))))) ∧
    (env.status s.nStatus = none →
       readSubPage env expected s = (none, bumpStatus s)) := by
  refine ⟨fun w hst hne => readSubPage_staleStatus env expected s he w hst hne,
          fun w f c hst hsp hram hctrl hwr => ?_,
          fun w hst hsp hram => readSubPage_ramFail env expected s he w hst hsp hram,
          fun w f hst hsp hram hctrl =>
            readSubPage_ctrlFail env expected s he w f hst hsp hram hctrl,
          fun w f c hst hsp hram hctrl hwr =>
            readSubPage_writeFail env expected s he w f c hst hsp hram hctrl hwr,
          fun hst => readSubPage_statusFail env expected s hst⟩
  have hlen : ((List.range 832).map f).length = 832 := by simp
  refine ⟨readSubPage_success env expected s he w f c hst hsp hram hctrl hwr,
          by simp, ?_, ?_, ?_⟩
  · rw [List.getElem?_append_right (by simp)]
    simp
  · rw [List.getElem?_append_right (by simp)]
    simp
  · rw [land_one_of_subpage w (by rw [hsp]; exact he), hsp]

/-- Environment for the C6 witness: the device is open, every status read
yields 8 (ready, subpage 0), bursts return the identity words, CTRL1 reads
77, and every write succeeds. -/
def envC6 : Env :=
  ⟨true, fun _ => some 8, fun _ => some (fun i => i), fun _ => some 77,
   fun _ => true, fun _ => some 25, fun _ _ _ => 0⟩

/-- Witness for C6: the successful-capture conjunct at the concrete
environment envC6 with expected subpage 0. -/
theorem C6_readSubPage_order_witness :
    readSubPage envC6 0 initState =
      (some ((List.range 832).map (fun i => i) ++ [8 &&& 1, 77]),
       bumpWrite (bumpCtrl (bumpRam (bumpStatus initState)))) ∧
    ((List.range 832).map (fun i => i) ++ [8 &&& 1, 77]).length = 834 ∧
    ((List.range 832).map (fun i => i) ++ [8 &&& 1, 77])[832]? = some (8 &&& 1) ∧
    ((List.range 832).map (fun i => i) ++ [8 &&& 1, 77])[833]? = some 77 ∧
    8 &&& 1 = 0 :=
  (C6_readSubPage_order envC6 0 initState (Or.inl rfl)).2.1
    8 (fun i => i) 77 rfl (by decide) rfl rfl rfl

/-! ## Claim C2: a failed status-clearing write -/

/-- Environment for the C2 counterexample: all reads succeed (status 8 =
ready subpage 0, burst words all 100, CTRL1 = 5) but every status-clearing
write fails. -/
def envC2 : Env :=
  ⟨true, fun _ => some 8, fun _ => some (fun _ => 100), fun _ => some 5,
   fun _ => false, fun _ => some 25, fun _ _ _ => 0⟩

/-- Counterexample to claim C2: in envC2 the status latch, the RAM burst
and the control-register read all succeed and the final status-clearing
write fails, yet readSubPage reports the capture as failed (the already
read data is discarded), contradicting the claim that the capture is still
reported successful. -/
theorem C2_counterexample :
    envC2.status 0 = some 8 ∧ (envC2.ram 0).isSome = true ∧
    envC2.ctrl 0 = some 5 ∧ envC2.writeOk 0 = false ∧
    (readSubPage envC2 0 initState).1 = none :=
  ⟨rfl, rfl, rfl, rfl, rfl⟩

/-- Claim C2 as amended: when the status latch, the 832-word burst and the
control-register read all succeed but the final status-clearing write
fails, readSubPage fails the whole capture (the source returns false at
MLX90640Reader.cpp lines 222-225), discarding the data already read; the
clear failure is not reported separately from the capture result. -/
theorem C2_amended_clearWriteFailsCapture (env : Env) (expected : Nat)
    (s : BusState) (w : Nat) (f : Nat → Nat) (c : Nat)
    (he : expected = 0 ∨ expected = 1)
    (hst : env.status s.nStatus = some w) (hsp : w &&& SUBPAGE_MASK = expected)
    (hram : env.ram s.nRam = some f) (hctrl : env.ctrl s.nCtrl = some c)
    (hwr : env.writeOk s.nWrite = false) :
    readSubPage env expected s =
      (none, bumpWrite (bumpCtrl (bumpRam (bumpStatus s)))) :=
  readSubPage_writeFail env expected s he w f c hst hsp hram hctrl hwr

/-- Witness for the amended C2 at the concrete environment envC2. -/
theorem C2_amended_clearWriteFailsCapture_witness :
    readSubPage envC2 0 initState =
      (none, bumpWrite (bumpCtrl (bumpRam (bumpStatus initState)))) :=
  C2_amended_clearWriteFailsCapture envC2 0 initState 8 (fun _ => 100) 5
    (Or.inl rfl) rfl (by decide) rfl rfl rfl

/-! ## Claim C9: the refresh-rate table and readRefreshRate -/

/-- Claim C9: every 3-bit refresh code 0..7 maps through the fixed table
0.5, 1, 2, 4, 8, 16, 32, 64 Hz full-frame, with the subpage period equal to
1 / (fullFrameHz * 2); code 2 gives 2 Hz and 0.25 s; a code outside 0..7
yields the explicit invalid sentinel -1 in both rate fields rather than any
default rate; and readRefreshRate is this lookup applied to the 3-bit code
extracted from the control register. -/
theorem C9_readRefreshRate_table :
    (∀ c, c < 8 →
      (refreshInfoOfCode c).code = c ∧
      (refreshInfoOfCode c).hz = [(1 : ℚ)/2, 1, 2, 4, 8, 16, 32, 64].getD c 0 ∧
      (refreshInfoOfCode c).subpage_period_s =
        1 / ((refreshInfoOfCode c).hz * 2)) ∧
    refreshInfoOfCode 2 = ⟨2, 2, 1/4⟩ ∧
    (∀ c, 8 ≤ c → (refreshInfoOfCode c).hz = -1 ∧
      (refreshInfoOfCode c).subpage_period_s = -1) ∧
    (∀ ctrl, readRefreshRate ctrl = refreshInfoOfCode ((ctrl >>> 7) &&& 7)) := by
  refine ⟨?_, rfl, ?_, fun ctrl => rfl⟩
  · intro c hc
    interval_cases c <;>
      exact ⟨rfl, rfl, by norm_num [refreshInfoOfCode, TABLE]⟩
  · intro c hc
    have h : TABLE[c]? = none := by
      apply List.getElem?_eq_none
      simp only [TABLE, List.length_cons, List.length_nil]
      omega
    simp [refreshInfoOfCode, h]

/-- Witness for C9 at the concrete code 2 (the FR2 rate the initializer
configures). -/
theorem C9_readRefreshRate_table_witness :
    (refreshInfoOfCode 2).code = 2 ∧
    (refreshInfoOfCode 2).hz = [(1 : ℚ)/2, 1, 2, 4, 8, 16, 32, 64].getD 2 0 ∧
    (refreshInfoOfCode 2).subpage_period_s =
      1 / ((refreshInfoOfCode 2).hz * 2) :=
  C9_readRefreshRate_table.1 2 (by norm_num)

/-! ## Claim C10: the transport shims ignore the device address -/

/-- Claim C10: the transport shims produce identical results and identical
bus traffic for any two device-address arguments (the parameter is unused;
all transfers go to the single globally bound device), and with no bound
device or an unopened one both return -1 without issuing any bus traffic. -/
theorem C10_transport_addrIndependent :
    (∀ g a1 a2 reg len,
      MLX90640_I2CRead g a1 reg len = MLX90640_I2CRead g a2 reg len) ∧
    (∀ g a1 a2 reg val,
      MLX90640_I2CWrite g a1 reg val = MLX90640_I2CWrite g a2 reg val) ∧
    (∀ a reg len val,
      MLX90640_I2CRead none a reg len = (-1, [], []) ∧
      MLX90640_I2CWrite none a reg val = (-1, [])) ∧
    (∀ d a reg len val, d.devOpen = false →
      MLX90640_I2CRead (some d) a reg len = (-1, [], []) ∧
      MLX90640_I2CWrite (some d) a reg val = (-1, [])) := by
  refine ⟨fun g a1 a2 reg len => rfl, fun g a1 a2 reg val => rfl,
          fun a reg len val => ⟨rfl, rfl⟩, ?_⟩
  intro d a reg len val hd
  constructor <;> simp [MLX90640_I2CRead, MLX90640_I2CWrite, hd]

/-- A device that is not open, for the C10 witness. -/
def closedDev : I2cDeviceM := ⟨false, fun _ _ => none, fun _ => false⟩

/-- Witness for C10: with the concrete unopened device both shims return -1
and issue no traffic. -/
theorem C10_transport_addrIndependent_witness :
    MLX90640_I2CRead (some closedDev) 0x33 0x8000 1 = (-1, [], []) ∧
    MLX90640_I2CWrite (some closedDev) 0x33 0x8000 0 = (-1, []) :=
  C10_transport_addrIndependent.2.2.2 closedDev 0x33 0x8000 1 0 rfl

/-! ## Claim C7: the chess-pattern merge -/

/-- Claim C7: for subframes with distinct subpage indices in 0..1, merged
element i equals toA i when the pixel parity (row + col) & 1 (with
row = i / WIDTH, col = i % WIDTH) equals subpage A's index, else toB i; and
swapping the subframes together with their indices yields the identical
merged output. -/
theorem C7_chessMerge {α : Type} (toA toB : Nat → α) (a b : Nat)
    (ha : a = 0 ∨ a = 1) (hb : b = 0 ∨ b = 1) (hab : a ≠ b) :
    (∀ i, i < PIXELS →
      (combineChessTemperatures toA toB a b)[i]? =
        some (if (i / WIDTH + i % WIDTH) &&& 1 = a then toA i else toB i)) ∧
    combineChessTemperatures toB toA b a =
      combineChessTemperatures toA toB a b := by
  constructor
  · intro i hi
    unfold combineChessTemperatures
    rw [List.getElem?_map, List.getElem?_range hi]
    simp only [Option.map_some]
    have hp : (i / WIDTH + i % WIDTH) % 2 = 0 ∨
        (i / WIDTH + i % WIDTH) % 2 = 1 := Nat.mod_two_eq_zero_or_one _
    rcases ha with rfl | rfl <;> rcases hp with hp | hp <;>
      simp [Nat.and_one_is_mod, hp]
  · unfold combineChessTemperatures
    apply List.map_congr_left
    intro i _
    rcases ha with rfl | rfl <;> rcases hb with rfl | rfl <;> simp at hab ⊢

/-- Witness for C7 with constant subframes 10 and 20 and indices 0 and 1,
evaluated at pixel 5 (parity 1, so the value comes from subframe B). -/
theorem C7_chessMerge_witness :
    (combineChessTemperatures (fun _ => (10 : Int)) (fun _ => 20) 0 1)[5]? =
      some (if (5 / WIDTH + 5 % WIDTH) &&& 1 = 0 then (10 : Int) else 20) ∧
    combineChessTemperatures (fun _ => (20 : Int)) (fun _ => 10) 1 0 =
      combineChessTemperatures (fun _ => (10 : Int)) (fun _ => 20) 0 1 :=
  ⟨(C7_chessMerge (fun _ => (10 : Int)) (fun _ => 20) 0 1
      (Or.inl rfl) (Or.inr rfl) (by decide)).1 5 (by decide),
   (C7_chessMerge (fun _ => (10 : Int)) (fun _ => 20) 0 1
      (Or.inl rfl) (Or.inr rfl) (by decide)).2⟩

/-! ## Helper lemmas about waitForNewFrame and the outer seek loop -/

/-- One not-ready status read makes waitForNewFrame sleep and poll again. -/
theorem wait_notReady_step (env : Env) (fuel : Nat) (s : BusState) (w : Nat)
    (hst : env.status s.nStatus = some w) (hw : w &&& NEW_DATA_READY = 0) :
    waitForNewFrame env (fuel + 1) s =
      waitForNewFrame env fuel (sleepSt (bumpStatus s)) := by
  have hd : decodeStatus w = .notReady := by
    simp [decodeStatus, hw]
  simp [waitForNewFrame, hst, hd]

/-- A ready status read returns that subpage at once. -/
theorem wait_ready_step (env : Env) (fuel : Nat) (s : BusState) (w sp : Nat)
    (hst : env.status s.nStatus = some w) (hd : decodeStatus w = .ready sp) :
    waitForNewFrame env (fuel + 1) s = (some sp, bumpStatus s) := by
  simp [waitForNewFrame, hst, hd]

/-- An invalid status read aborts the wait call at once. -/
theorem wait_invalid_step (env : Env) (fuel : Nat) (s : BusState) (w : Nat)
    (hst : env.status s.nStatus = some w) (hd : decodeStatus w = .invalid) :
    waitForNewFrame env (fuel + 1) s = (none, bumpStatus s) := by
  simp [waitForNewFrame, hst, hd]

/-- With fuel consecutive not-ready reads ahead, waitForNewFrame times out
after exactly fuel status reads and fuel sleeps. -/
theorem wait_timeout (env : Env) : ∀ (fuel : Nat) (s : BusState),
    (∀ j, j < fuel → ∃ w, env.status (s.nStatus + j) = some w ∧
      w &&& NEW_DATA_READY = 0) →
    waitForNewFrame env fuel s =
      (none, ⟨s.nStatus + fuel, s.nRam, s.nCtrl, s.nWrite,
              s.nSleepUs + fuel * DELAY_US⟩) := by
  intro fuel
  induction fuel with
  | zero => intro s _; rfl
  | succ fuel ih =>
    intro s h
    obtain ⟨w, hst, hw⟩ := h 0 (by omega)
    rw [Nat.add_zero] at hst
    rw [wait_notReady_step env fuel s w hst hw]
    have hrec := ih (sleepSt (bumpStatus s)) ?_
    · rw [hrec]
      simp only [sleepSt, bumpStatus, Prod.mk.injEq, BusState.mk.injEq, Option.some.injEq, eq_self_iff_true, true_and, and_true, DELAY_US]
      omega
    · intro j hj
      obtain ⟨w1, hst1, hw1⟩ := h (j + 1) (by omega)
      refine ⟨w1, ?_, hw1⟩
      have e : (sleepSt (bumpStatus s)).nStatus + j = s.nStatus + (j + 1) := by
        simp [sleepSt, bumpStatus]
        omega
      rw [e]
      exact hst1

/-- If the first k status reads are not-ready and the next one decodes as a
ready subpage, with k inside the fuel budget, waitForNewFrame returns that
subpage having issued exactly k + 1 status reads and k sleeps. -/
theorem wait_hits_ready (env : Env) : ∀ (k fuel : Nat) (s : BusState),
    k < fuel →
    (∀ j, j < k → ∃ w, env.status (s.nStatus + j) = some w ∧
      w &&& NEW_DATA_READY = 0) →
    ∀ w sp, env.status (s.nStatus + k) = some w → decodeStatus w = .ready sp →
    waitForNewFrame env fuel s =
      (some sp, ⟨s.nStatus + k + 1, s.nRam, s.nCtrl, s.nWrite,
                 s.nSleepUs + k * DELAY_US⟩) := by
  intro k
  induction k with
  | zero =>
    intro fuel s hk hpre w sp hst hd
    rw [Nat.add_zero] at hst
    obtain ⟨fuel, rfl⟩ : ∃ f, fuel = f + 1 := ⟨fuel - 1, by omega⟩
    rw [wait_ready_step env fuel s w sp hst hd]
    simp only [bumpStatus, Prod.mk.injEq, BusState.mk.injEq, Option.some.injEq, eq_self_iff_true, true_and, and_true]
    omega
  | succ k ih =>
    intro fuel s hk hpre w sp hst hd
    obtain ⟨fuel, rfl⟩ : ∃ f, fuel = f + 1 := ⟨fuel - 1, by omega⟩
    obtain ⟨w0, hst0, hw0⟩ := hpre 0 (by omega)
    rw [Nat.add_zero] at hst0
    rw [wait_notReady_step env fuel s w0 hst0 hw0]
    have hrec := ih fuel (sleepSt (bumpStatus s)) (by omega) ?_ w sp ?_ hd
    · rw [hrec]
      simp only [sleepSt, bumpStatus, Prod.mk.injEq, BusState.mk.injEq, Option.some.injEq, eq_self_iff_true, true_and, and_true, DELAY_US]
      omega
    · intro j hj
      obtain ⟨w1, hst1, hw1⟩ := hpre (j + 1) (by omega)
      refine ⟨w1, ?_, hw1⟩
      have e : (sleepSt (bumpStatus s)).nStatus + j = s.nStatus + (j + 1) := by
        simp [sleepSt, bumpStatus]
        omega
      rw [e]
      exact hst1
    · have e : (sleepSt (bumpStatus s)).nStatus + k = s.nStatus + (k + 1) := by
        simp [sleepSt, bumpStatus]
        omega
      rw [e]
      exact hst

/-- If the first k status reads are not-ready and the next one decodes as a
ready subpage, with k inside the combined budget of F wait calls, the outer
seek loop returns that subpage having issued exactly k + 1 status reads;
the sleeps are the k polling sleeps plus one outer sleep per timed-out wait
call. -/
theorem seek_hits_ready (env : Env) : ∀ (F k : Nat) (s : BusState),
    k < F * MAX_RETRIES →
    (∀ j, j < k → ∃ w, env.status (s.nStatus + j) = some w ∧
      w &&& NEW_DATA_READY = 0) →
    ∀ w sp, env.status (s.nStatus + k) = some w → decodeStatus w = .ready sp →
    seekLoop env F s =
      (some sp, ⟨s.nStatus + k + 1, s.nRam, s.nCtrl, s.nWrite,
                 s.nSleepUs + (k + k / MAX_RETRIES) * DELAY_US⟩) := by
  intro F
  induction F with
  | zero =>
    intro k s hk
    simp [MAX_RETRIES] at hk
  | succ F ih =>
    intro k s hk hpre w sp hst hd
    by_cases hsmall : k < MAX_RETRIES
    · have hwait := wait_hits_ready env k MAX_RETRIES s hsmall hpre w sp hst hd
      simp only [seekLoop, hwait]
      simp only [Prod.mk.injEq, BusState.mk.injEq, Option.some.injEq, eq_self_iff_true, true_and, and_true, MAX_RETRIES, DELAY_US] at *
      omega
    · have hwait := wait_timeout env MAX_RETRIES s
        (fun j hj => hpre j (by omega))
      simp only [seekLoop, hwait]
      have hrec := ih (k - MAX_RETRIES)
        (sleepSt ⟨s.nStatus + MAX_RETRIES, s.nRam, s.nCtrl, s.nWrite,
                  s.nSleepUs + MAX_RETRIES * DELAY_US⟩)
        (by simp only [MAX_RETRIES] at *; omega) ?_ w sp ?_ hd
      · rw [hrec]
        simp only [sleepSt, Prod.mk.injEq, BusState.mk.injEq, Option.some.injEq, eq_self_iff_true, true_and, and_true, MAX_RETRIES,
          DELAY_US] at *
        omega
      · intro j hj
        obtain ⟨w1, hst1, hw1⟩ := hpre (MAX_RETRIES + j) (by omega)
        refine ⟨w1, ?_, hw1⟩
        have e : (sleepSt ⟨s.nStatus + MAX_RETRIES, s.nRam, s.nCtrl, s.nWrite,
            s.nSleepUs + MAX_RETRIES * DELAY_US⟩).nStatus + j =
            s.nStatus + (MAX_RETRIES + j) := by
          simp [sleepSt]
          omega
        rw [e]
        exact hst1
      · have e : (sleepSt ⟨s.nStatus + MAX_RETRIES, s.nRam, s.nCtrl, s.nWrite,
            s.nSleepUs + MAX_RETRIES * DELAY_US⟩).nStatus + (k - MAX_RETRIES) =
            s.nStatus + k := by
          simp [sleepSt]
          omega
        rw [e]
        exact hst

/-- With every status read not-ready, the outer seek loop times out having
issued exactly F * MAX_RETRIES status reads, with F * MAX_RETRIES inner
sleeps and F outer sleeps. -/
theorem seek_all_timeout (env : Env) : ∀ (F : Nat) (s : BusState),
    (∀ j, j < F * MAX_RETRIES → ∃ w, env.status (s.nStatus + j) = some w ∧
      w &&& NEW_DATA_READY = 0) →
    seekLoop env F s =
      (none, ⟨s.nStatus + F * MAX_RETRIES, s.nRam, s.nCtrl, s.nWrite,
              s.nSleepUs + F * (MAX_RETRIES + 1) * DELAY_US⟩) := by
  intro F
  induction F with
  | zero =>
    intro s _
    rfl
  | succ F ih =>
    intro s h
    have hwait := wait_timeout env MAX_RETRIES s
      (fun j hj => h j (by simp only [MAX_RETRIES] at *; omega))
    simp only [seekLoop, hwait]
    have hrec := ih (sleepSt ⟨s.nStatus + MAX_RETRIES, s.nRam, s.nCtrl,
        s.nWrite, s.nSleepUs + MAX_RETRIES * DELAY_US⟩) ?_
    · rw [hrec]
      simp only [sleepSt, Prod.mk.injEq, BusState.mk.injEq, Option.some.injEq, eq_self_iff_true, true_and, and_true, MAX_RETRIES,
        DELAY_US] at *
      omega
    · intro j hj
      obtain ⟨w1, hst1, hw1⟩ := h (MAX_RETRIES + j)
        (by simp only [MAX_RETRIES] at *; omega)
      refine ⟨w1, ?_, hw1⟩
      have e : (sleepSt ⟨s.nStatus + MAX_RETRIES, s.nRam, s.nCtrl, s.nWrite,
          s.nSleepUs + MAX_RETRIES * DELAY_US⟩).nStatus + j =
          s.nStatus + (MAX_RETRIES + j) := by
        simp [sleepSt]
        omega
      rw [e]
      exact hst1

/-! ## Claim C1: a wrong-subpage ready status fails the acquisition fast -/

/-- Claim C1: in either phase of readFrame, if the first status read that
reports data ready decodes to a subpage different from the expected one,
the phase fails at once: exactly k + 1 status reads were issued when the
ready report was the k-th read, no RAM burst is issued, and only the single
status-clearing write of the failure path happens; for the first phase
(expected subpage 0) the whole readFrame call fails in that same state. -/
theorem C1_wrongSubpage_failsFast (env : Env) (expected k : Nat) (s : BusState)
    (hk : k < MAX_RETRIES * MAX_RETRIES)
    (hpre : ∀ j, j < k → ∃ w, env.status (s.nStatus + j) = some w ∧
      w &&& NEW_DATA_READY = 0)
    (w sp : Nat) (hst : env.status (s.nStatus + k) = some w)
    (hd : decodeStatus w = .ready sp) (hne : sp ≠ expected) :
    acquirePhase env expected s =
      (none, ⟨s.nStatus + k + 1, s.nRam, s.nCtrl, s.nWrite + 1,
              s.nSleepUs + (k + k / MAX_RETRIES) * DELAY_US⟩) ∧
    (expected = 0 → env.devOpen = true →
      readFrame env s =
        (none, ⟨s.nStatus + k + 1, s.nRam, s.nCtrl, s.nWrite + 1,
                s.nSleepUs + (k + k / MAX_RETRIES) * DELAY_US⟩)) := by
  have hseek := seek_hits_ready env MAX_RETRIES k s hk hpre w sp hst hd
  have hacq : acquirePhase env expected s =
      (none, ⟨s.nStatus + k + 1, s.nRam, s.nCtrl, s.nWrite + 1,
              s.nSleepUs + (k + k / MAX_RETRIES) * DELAY_US⟩) := by
    simp only [acquirePhase, hseek, if_pos hne, clearStatusWrite, bumpWrite]
  refine ⟨hacq, fun he ho => ?_⟩
  subst he
  simp only [readFrame, ho, hacq]
  simp

/-- Environment for the C1 witness: the very first status read reports
ready with subpage 1 while subpage 0 is expected. -/
def envC1 : Env :=
  ⟨true, fun i => if i = 0 then some 9 else some 0,
   fun _ => some (fun _ => 0), fun _ => some 0, fun _ => true,
   fun _ => some 25, fun _ _ _ => 0⟩

/-- Witness for C1: with envC1 the first phase fails after exactly one
status read (9 decodes to ready subpage 1, but 0 is expected), with no
burst, one clearing write and no sleeping, and readFrame fails likewise. -/
theorem C1_wrongSubpage_failsFast_witness :
    acquirePhase envC1 0 initState = (none, ⟨1, 0, 0, 1, 0⟩) ∧
    (0 = 0 → envC1.devOpen = true →
      readFrame envC1 initState = (none, ⟨1, 0, 0, 1, 0⟩)) :=
  C1_wrongSubpage_failsFast envC1 0 0 initState (by decide)
    (fun j hj => absurd hj (by omega)) 9 1 rfl (by decide) (by decide)

/-! ## Claim C3: an invalid status is retried by the acquisition loop -/

/-- Environment for the C3 counterexample: the first status read is the
malformed word 10 (ready bit set, low bits 2), every later one is 8 (ready,
subpage 0); all other bus operations succeed. -/
def envC3 : Env :=
  ⟨true, fun i => if i = 0 then some 10 else some 8,
   fun _ => some (fun i => i), fun _ => some 7, fun _ => true,
   fun _ => some 25, fun _ _ _ => 0⟩

/-- Counterexample to claim C3: in envC3 the malformed status word 10 is
observed on the very first status read, yet the acquisition goes on to
issue two further status reads (three in total) and even succeeds, because
readFrame's retry loop re-invokes the wait after the invalid-status
failure; the claim that no further status reads are issued for that
acquisition is false. -/
theorem C3_counterexample :
    envC3.status 0 = some 10 ∧ decodeStatus 10 = .invalid ∧
    (acquirePhase envC3 0 initState).1.isSome = true ∧
    (acquirePhase envC3 0 initState).2.nStatus = 3 :=
  ⟨rfl, by decide, by decide, by decide⟩

/-- Claim C3 as amended: a malformed status word (ready bit set, low three
bits neither 0 nor 1) terminates the waitForNewFrame call at once with
failure — no further status read is issued inside that call — but the
acquisition loop in readFrame treats this failure like a timeout and calls
the wait again, so for the whole acquisition attempt further status reads
are issued after the malformed status was observed. -/
theorem C3_amended_invalidStops_butSeekRetries (env : Env) (s : BusState)
    (w : Nat) (hst : env.status s.nStatus = some w)
    (hd : decodeStatus w = .invalid) :
    (∀ fuel, waitForNewFrame env (fuel + 1) s = (none, bumpStatus s)) ∧
    (∀ F, seekLoop env (F + 1) s = seekLoop env F (sleepSt (bumpStatus s))) := by
  have hw : ∀ fuel, waitForNewFrame env (fuel + 1) s = (none, bumpStatus s) :=
    fun fuel => wait_invalid_step env fuel s w hst hd
  refine ⟨hw, fun F => ?_⟩
  have h150 : waitForNewFrame env MAX_RETRIES s = (none, bumpStatus s) := by
    rw [show MAX_RETRIES = 149 + 1 from rfl]
    exact hw 149
  simp [seekLoop, h150]

/-- Witness for the amended C3 at the concrete environment envC3. -/
theorem C3_amended_witness :
    waitForNewFrame envC3 (0 + 1) initState = (none, bumpStatus initState) ∧
    seekLoop envC3 (3 + 1) initState =
      seekLoop envC3 3 (sleepSt (bumpStatus initState)) :=
  ⟨(C3_amended_invalidStops_butSeekRetries envC3 initState 10 rfl (by decide)).1 0,
   (C3_amended_invalidStops_butSeekRetries envC3 initState 10 rfl (by decide)).2 3⟩

/-! ## Claim C4: the retry budget and its bounds -/

/-- The wait loop issues at most fuel status reads, sleeps at most
fuel * DELAY_US microseconds, and issues no burst, CTRL read or write. -/
theorem wait_bounds (env : Env) : ∀ (fuel : Nat) (s : BusState),
    (waitForNewFrame env fuel s).2.nStatus ≤ s.nStatus + fuel ∧
    (waitForNewFrame env fuel s).2.nSleepUs ≤ s.nSleepUs + fuel * DELAY_US ∧
    (waitForNewFrame env fuel s).2.nRam = s.nRam ∧
    (waitForNewFrame env fuel s).2.nCtrl = s.nCtrl ∧
    (waitForNewFrame env fuel s).2.nWrite = s.nWrite := by
  intro fuel
  induction fuel with
  | zero =>
    intro s
    simp [waitForNewFrame]
  | succ fuel ih =>
    intro s
    cases hst : env.status s.nStatus with
    | none =>
      simp [waitForNewFrame, hst, bumpStatus]
    | some w =>
      cases hd : decodeStatus w with
      | ready sp =>
        simp [waitForNewFrame, hst, hd, bumpStatus]
      | invalid =>
        simp [waitForNewFrame, hst, hd, bumpStatus]
      | notReady =>
        have hr := ih (sleepSt (bumpStatus s))
        simp only [waitForNewFrame, hst, hd] at *
        simp only [sleepSt, bumpStatus] at hr ⊢
        simp only [DELAY_US] at *
        omega

/-- The outer seek loop issues at most F * MAX_RETRIES status reads,
sleeps at most F * (MAX_RETRIES + 1) * DELAY_US microseconds, and issues no
burst, CTRL read or write. -/
theorem seek_bounds (env : Env) : ∀ (F : Nat) (s : BusState),
    (seekLoop env F s).2.nStatus ≤ s.nStatus + F * MAX_RETRIES ∧
    (seekLoop env F s).2.nSleepUs ≤
      s.nSleepUs + F * (MAX_RETRIES + 1) * DELAY_US ∧
    (seekLoop env F s).2.nRam = s.nRam ∧
    (seekLoop env F s).2.nCtrl = s.nCtrl ∧
    (seekLoop env F s).2.nWrite = s.nWrite := by
  intro F
  induction F with
  | zero =>
    intro s
    simp [seekLoop]
  | succ F ih =>
    intro s
    have hw := wait_bounds env MAX_RETRIES s
    rcases hwait : waitForNewFrame env MAX_RETRIES s with ⟨r, s1⟩
    rw [hwait] at hw
    cases r with
    | some sp =>
      simp only [seekLoop, hwait]
      simp only [MAX_RETRIES, DELAY_US] at *
      omega
    | none =>
      have hr := ih (sleepSt s1)
      simp only [seekLoop, hwait]
      simp only [sleepSt] at hr ⊢
      simp only [MAX_RETRIES, DELAY_US] at *
      omega

/-- readSubPage issues at most one of each bus operation and never sleeps. -/
theorem readSubPage_bounds (env : Env) (e : Nat) (s : BusState) :
    (readSubPage env e s).2.nStatus ≤ s.nStatus + 1 ∧
    (readSubPage env e s).2.nSleepUs = s.nSleepUs ∧
    (readSubPage env e s).2.nRam ≤ s.nRam + 1 ∧
    (readSubPage env e s).2.nCtrl ≤ s.nCtrl + 1 ∧
    (readSubPage env e s).2.nWrite ≤ s.nWrite + 1 := by
  cases hst : env.status s.nStatus with
  | none =>
    simp [readSubPage, hst, bumpStatus]
  | some w =>
    simp only [readSubPage, hst]
    dsimp only [bumpStatus, bumpRam, bumpCtrl, bumpWrite, clearStatusWrite]
    cases hram : env.ram s.nRam with
    | none => split_ifs <;> simp
    | some f =>
      cases hctrl : env.ctrl s.nCtrl with
      | none => split_ifs <;> simp
      | some c =>
        cases hwr : env.writeOk s.nWrite with
        | false => split_ifs <;> simp_all
        | true => split_ifs <;> simp_all

/-- One subpage phase issues at most MAX_RETRIES * MAX_RETRIES + 1 status
reads and sleeps at most MAX_RETRIES * (MAX_RETRIES + 1) * DELAY_US. -/
theorem acquirePhase_bounds (env : Env) (e : Nat) (s : BusState) :
    (acquirePhase env e s).2.nStatus ≤
      s.nStatus + (MAX_RETRIES * MAX_RETRIES + 1) ∧
    (acquirePhase env e s).2.nSleepUs ≤
      s.nSleepUs + MAX_RETRIES * (MAX_RETRIES + 1) * DELAY_US := by
  have hs := seek_bounds env MAX_RETRIES s
  rcases hseek : seekLoop env MAX_RETRIES s with ⟨r, s1⟩
  rw [hseek] at hs
  cases r with
  | none =>
    simp only [acquirePhase, hseek, clearStatusWrite, bumpWrite]
    simp only [MAX_RETRIES, DELAY_US] at *
    omega
  | some sp =>
    by_cases hsp : sp ≠ e
    · simp only [acquirePhase, hseek, if_pos hsp, clearStatusWrite, bumpWrite]
      simp only [MAX_RETRIES, DELAY_US] at *
      omega
    · have hrs := readSubPage_bounds env sp s1
      rcases hread : readSubPage env sp s1 with ⟨r2, s2⟩
      rw [hread] at hrs
      cases r2 with
      | none =>
        simp only [acquirePhase, hseek, if_neg hsp, hread, clearStatusWrite,
          bumpWrite]
        simp only [MAX_RETRIES, DELAY_US] at *
        omega
      | some buf =>
        simp only [acquirePhase, hseek, if_neg hsp, hread, clearStatusWrite,
          bumpWrite]
        simp only [MAX_RETRIES, DELAY_US] at *
        omega

/-- A full readFrame call issues at most 2 * (MAX_RETRIES² + 1) status
reads and sleeps at most 2 * MAX_RETRIES * (MAX_RETRIES + 1) * DELAY_US. -/
theorem readFrame_bounds (env : Env) (s : BusState) :
    (readFrame env s).2.nStatus ≤
      s.nStatus + 2 * (MAX_RETRIES * MAX_RETRIES + 1) ∧
    (readFrame env s).2.nSleepUs ≤
      s.nSleepUs + 2 * (MAX_RETRIES * (MAX_RETRIES + 1)) * DELAY_US := by
  unfold readFrame
  split
  · simp
  · have h0 := acquirePhase_bounds env 0 s
    rcases ha : acquirePhase env 0 s with ⟨_ | fA, s1⟩
    · rw [ha] at h0
      simp only [ha]
      simp only [MAX_RETRIES, DELAY_US] at *
      omega
    · rw [ha] at h0
      have h1 := acquirePhase_bounds env 1 s1
      rcases hb : acquirePhase env 1 s1 with ⟨_ | fB, s2⟩
      · rw [hb] at h1
        simp only [ha, hb]
        simp only [MAX_RETRIES, DELAY_US] at *
        omega
      · rw [hb] at h1
        simp only [ha, hb]
        cases hta : selectTa (env.getTa fA) (env.getTa fB) with
        | none =>
          simp only [hta]
          simp only [MAX_RETRIES, DELAY_US] at *
          omega
        | some ta =>
          simp only [hta]
          simp only [MAX_RETRIES, DELAY_US] at *
          omega

/-- Claim C4 as amended: the per-call retry budget MAX_RETRIES and the poll
delay DELAY_US are the hardcoded constants 150 and 5000 µs (not derived
from the refresh rate); a single waitForNewFrame call issues at most
MAX_RETRIES status reads; but one subpage phase of readFrame may issue up
to MAX_RETRIES * MAX_RETRIES + 1 status reads, because readFrame wraps the
wait in a second MAX_RETRIES-iteration retry loop, and the worst-case sleep
time of a frame is bounded by 2 * MAX_RETRIES * (MAX_RETRIES + 1) *
DELAY_US, not 2 * MAX_RETRIES * DELAY_US. -/
theorem C4_amended_retryBudget :
    MAX_RETRIES = 150 ∧ DELAY_US = 5000 ∧
    (∀ env fuel s, (waitForNewFrame env fuel s).2.nStatus ≤ s.nStatus + fuel) ∧
    (∀ env e s, (acquirePhase env e s).2.nStatus ≤
      s.nStatus + (MAX_RETRIES * MAX_RETRIES + 1)) ∧
    (∀ env s, (readFrame env s).2.nStatus ≤
      s.nStatus + 2 * (MAX_RETRIES * MAX_RETRIES + 1)) ∧
    (∀ env s, (readFrame env s).2.nSleepUs ≤
      s.nSleepUs + 2 * (MAX_RETRIES * (MAX_RETRIES + 1)) * DELAY_US) :=
  ⟨rfl, rfl, fun env fuel s => (wait_bounds env fuel s).1,
   fun env e s => (acquirePhase_bounds env e s).1,
   fun env s => (readFrame_bounds env s).1,
   fun env s => (readFrame_bounds env s).2⟩

/-- Environment for the C4 counterexample: the status register never
reports data ready. -/
def envZero : Env :=
  ⟨true, fun _ => some 0, fun _ => some (fun _ => 0), fun _ => some 0,
   fun _ => true, fun _ => some 25, fun _ _ _ => 0⟩

/-- Counterexample to claim C4: with a never-ready sensor, one subpage
phase issues 22500 = MAX_RETRIES * MAX_RETRIES status reads, far more than
the claimed bound of MAX_RETRIES = 150 per subpage, and sleeps 113.25
seconds, far exceeding the claimed whole-frame wall-clock bound
2 * MAX_RETRIES * DELAY_US = 1.5 s; moreover MAX_RETRIES is the hardcoded
constant 150, not ceil(subpagePeriodSeconds * marginFactor * 1e6 /
pollIntervalMicros) = 63 for the FR2 rate configured by initialize()
(subpage period 0.25 s) at the recommended margin 1.25. -/
theorem C4_counterexample :
    (acquirePhase envZero 0 initState).2.nStatus = 22500 ∧
    MAX_RETRIES = 150 ∧ 150 < 22500 ∧
    (acquirePhase envZero 0 initState).2.nSleepUs = 113250000 ∧
    2 * MAX_RETRIES * DELAY_US < 113250000 ∧
    (1 : ℚ)/4 * (5/4) * 1000000 = 312500 ∧
    (312500 + (DELAY_US - 1)) / DELAY_US = 63 ∧
    MAX_RETRIES ≠ 63 := by
  have hseek := seek_all_timeout envZero MAX_RETRIES initState
    (fun j hj => ⟨0, rfl, rfl⟩)
  have hacq : acquirePhase envZero 0 initState =
      (none, ⟨22500, 0, 0, 1, 113250000⟩) := by
    simp only [acquirePhase, hseek, clearStatusWrite, bumpWrite]
    norm_num [initState, MAX_RETRIES, DELAY_US]
  refine ⟨by rw [hacq], rfl, by norm_num, by rw [hacq],
    by norm_num [MAX_RETRIES, DELAY_US], by norm_num,
    by norm_num [DELAY_US], by norm_num [MAX_RETRIES]⟩

/-! ## Claim C8: ambient temperature selection in readFrame -/

/-- Claim C8: once both subpage captures have succeeded, the ambient
temperature used for conversion is the average of the two subpages'
readings when both are finite, the single finite one when exactly one is
finite, and when neither is finite readFrame fails the frame instead of
converting. -/
theorem C8_ambientSelection (env : Env) (s s1 s2 : BusState)
    (fA fB : List Nat) (hopen : env.devOpen = true)
    (h1 : acquirePhase env 0 s = (some fA, s1))
    (h2 : acquirePhase env 1 s1 = (some fB, s2)) :
    (∀ a b, env.getTa fA = some a → env.getTa fB = some b →
      readFrame env s =
        (some (combineChessTemperatures (env.calcTo fA ((a + b) / 2))
          (env.calcTo fB ((a + b) / 2)) 0 1), s2)) ∧
    (∀ a, env.getTa fA = some a → env.getTa fB = none →
      readFrame env s =
        (some (combineChessTemperatures (env.calcTo fA a)
          (env.calcTo fB a) 0 1), s2)) ∧
    (∀ b, env.getTa fA = none → env.getTa fB = some b →
      readFrame env s =
        (some (combineChessTemperatures (env.calcTo fA b)
          (env.calcTo fB b) 0 1), s2)) ∧
    (env.getTa fA = none → env.getTa fB = none →
      readFrame env s = (none, s2)) := by
  refine ⟨fun a b ha hb => ?_, fun a ha hb => ?_, fun b ha hb => ?_,
    fun ha hb => ?_⟩ <;>
    simp [readFrame, hopen, h1, h2, selectTa, ha, hb]

/-- Environment for the C8 witness: the first two status reads report
ready subpage 0, the later ones ready subpage 1; every burst word is 100,
CTRL1 is 7, writes succeed, and both ambient readings are the finite 20. -/
def envC8 : Env :=
  ⟨true, fun i => if i < 2 then some 8 else some 9,
   fun _ => some (fun _ => 100), fun _ => some 7, fun _ => true,
   fun _ => some 20, fun _ _ _ => 30⟩

set_option maxRecDepth 20000 in
/-- Witness for C8: in envC8 both phases succeed and the frame is converted
with the averaged ambient temperature (20 + 20) / 2. -/
theorem C8_ambientSelection_witness :
    readFrame envC8 initState =
      (some (combineChessTemperatures
        (envC8.calcTo ((List.range 832).map (fun _ => 100) ++ [8 &&& 1, 7])
          ((20 + 20) / 2))
        (envC8.calcTo ((List.range 832).map (fun _ => 100) ++ [9 &&& 1, 7])
          ((20 + 20) / 2)) 0 1),
       ⟨4, 2, 2, 4, 0⟩) :=
  (C8_ambientSelection envC8 initState ⟨2, 1, 1, 2, 0⟩ ⟨4, 2, 2, 4, 0⟩
    ((List.range 832).map (fun _ => 100) ++ [8 &&& 1, 7])
    ((List.range 832).map (fun _ => 100) ++ [9 &&& 1, 7])
    rfl (by decide) (by decide)).1 20 20 rfl rfl

end Duosight
